import Mathlib

/-!
Verification of the availability estimator of the `mlol-scraper` repository.

The embedded code is the reservation-estimation loop of
`src/mlol-scraper/mlol.py` (lines 370-379; identical logic at module level in
`src/mlol-scraper/mlol-scraper.py`, lines 214-223) together with the
`MLOLReservation` record (mlol.py, lines 89-98) and the configuration
constructor `MLOLConfig.__init__` (mlol.py, lines 117-127).

Modelling conventions:
* Python dates (`datetime.date`) are modelled by their proleptic Gregorian
  day ordinal (exactly `date.toordinal()`), an `Int`; adding
  `timedelta(days = d)` is integer addition.  Under this encoding,
  2024-01-01 is ordinal 738886.
* `queue_position`, `available_copies` and `loan_duration_in_days` are
  non-negative Python integers scraped by `re.compile('\x5cd+')` or taken
  from configuration; they are modelled as `Nat`.
* Python's `floor(people_ahead / available_copies)` (true division followed
  by `math.floor`) is modelled as exact integer division `Nat.div`, which
  agrees with it for all operands representable exactly in a float
  (below 2^53).  Dividing by zero raises `ZeroDivisionError` in Python; the
  checked step function `estimateStep` makes that exception explicit.
* The scraping-only fields of `MLOLConfig` (`base_url`, `username`,
  `password`) play no role in the estimation loop and are omitted from the
  embedded record.
-/

namespace MLOLSpec

/-- Embedding of `MLOLReservation` (mlol.py, lines 89-98): the snapshot of one
title's reservation state, as scraped. -/
structure MLOLReservation where
  title : String
  authors : String
  queue_position : Nat
  available_copies : Nat
deriving DecidableEq

/-- Embedding of the fields of `MLOLConfig` that the estimation loop reads
(mlol.py, lines 117-127); the scraping credentials and URL are omitted. -/
structure MLOLConfig where
  max_concurrent_reservations : Int
  loan_duration_in_days : Int
  max_monthly_loans : Int
deriving DecidableEq

/-- Embedding of `MLOLConfig.__init__` (mlol.py, lines 117-127): the two
`assert` statements run in source order; a failed `assert` raises
`AssertionError` with the given message, modelled as `Except.error`. -/
def MLOLConfig.init (max_concurrent_reservations loan_duration_in_days max_monthly_loans : Int) :
    Except String MLOLConfig :=
  if max_concurrent_reservations ≤ 0 then
    Except.error "The maximum number of concurrent reservations must be greater than zero"
  else if loan_duration_in_days ≤ 0 then
    Except.error "Duration of a loan (in days) must be greater than zero"
  else
    Except.ok ⟨max_concurrent_reservations, loan_duration_in_days, max_monthly_loans⟩

/-- mlol.py line 371: `people_ahead_in_queue = reservation.queue_position - 1`. -/
def people_ahead_in_queue (res : MLOLReservation) : Nat :=
  res.queue_position - 1

/-- mlol.py line 372:
`rounds_to_wait = floor(people_ahead_in_queue / reservation.available_copies)`. -/
def rounds_to_wait (res : MLOLReservation) : Nat :=
  people_ahead_in_queue res / res.available_copies

/-- mlol.py line 374 (first binding of `days_to_wait`):
`days_to_wait = 1 + rounds_to_wait * config.loan_duration_in_days`. -/
def days_to_wait_best (res : MLOLReservation) (loan_duration_in_days : Nat) : Nat :=
  1 + rounds_to_wait res * loan_duration_in_days

/-- mlol.py line 377 (rebinding of `days_to_wait`):
`days_to_wait = (rounds_to_wait + 1) * config.loan_duration_in_days`. -/
def days_to_wait_worst (res : MLOLReservation) (loan_duration_in_days : Nat) : Nat :=
  (rounds_to_wait res + 1) * loan_duration_in_days

/-- mlol.py line 375:
`best_availability = date.today() + timedelta(days=1) + timedelta(days=days_to_wait)`,
with `days_to_wait` as bound on line 374. -/
def best_availability (res : MLOLReservation) (loan_duration_in_days : Nat) (today : Int) : Int :=
  today + 1 + (days_to_wait_best res loan_duration_in_days : Int)

/-- mlol.py line 378:
`worst_availability = date.today() + timedelta(days=1) + timedelta(days=days_to_wait)`,
with `days_to_wait` as rebound on line 377. -/
def worst_availability (res : MLOLReservation) (loan_duration_in_days : Nat) (today : Int) : Int :=
  today + 1 + (days_to_wait_worst res loan_duration_in_days : Int)

/-- The two kinds of runtime error the estimation step can surface:
`ZeroDivisionError` is what Python raises for `floor(x / 0)`; an
invalid-input error is the `AssertionError`-style rejection the spec asks
for. -/
inductive PyError where
  | zeroDivisionError
  | invalidInputError
deriving DecidableEq

/-- One iteration of the estimation loop body (mlol.py, lines 371-378) as a
fallible computation: Python raises `ZeroDivisionError` on line 372 when
`available_copies = 0`; no other exception can arise in the body. -/
def estimateStep (loan_duration_in_days : Nat) (today : Int) (res : MLOLReservation) :
    Except PyError (Int × Int) :=
  if res.available_copies = 0 then
    Except.error PyError.zeroDivisionError
  else
    Except.ok (best_availability res loan_duration_in_days today,
               worst_availability res loan_duration_in_days today)

/-- One report line produced by the `logging.info` call on mlol.py line 379. -/
structure ReportLine where
  title : String
  authors : String
  best : Int
  worst : Int
deriving DecidableEq

/-- The whole estimation loop (mlol.py, lines 370-379): the loop body has no
`try`/`except`, so an uncaught exception in one iteration stops the loop;
lines already logged before the crash remain emitted.  The result is the list
of emitted report lines together with the exception that escaped, if any. -/
def estimationLoop (loan_duration_in_days : Nat) (today : Int) :
    List MLOLReservation → List ReportLine × Option PyError
  | [] => ([], none)
  | res :: rest =>
    match estimateStep loan_duration_in_days today res with
    | Except.error e => ([], some e)
    | Except.ok (b, w) =>
      let tail := estimationLoop loan_duration_in_days today rest
      (⟨res.title, res.authors, b, w⟩ :: tail.1, tail.2)

/-- Day ordinal of 2024-01-01 (`date(2024, 1, 1).toordinal()` in Python). -/
def d2024_01_01 : Int := 738886

/-- Day ordinal of 2024-01-02. -/
def d2024_01_02 : Int := 738887

/-- Day ordinal of 2024-01-03. -/
def d2024_01_03 : Int := 738888

/-- Day ordinal of 2024-01-15. -/
def d2024_01_15 : Int := 738900

/-- Day ordinal of 2024-01-16. -/
def d2024_01_16 : Int := 738901

/-- C1: for every valid input (queue position, available copies and loan
duration all at least 1) and every date `today`, the computed
`worst_availability` minus `best_availability` is exactly
`loan_duration_in_days - 1` days. -/
theorem loan_window_width (res : MLOLReservation) (L : Nat) (today : Int)
    (hq : 1 ≤ res.queue_position) (ha : 1 ≤ res.available_copies) (hL : 1 ≤ L) :
    worst_availability res L today - best_availability res L today = (L : Int) - 1 := by
  unfold worst_availability best_availability days_to_wait_worst days_to_wait_best
  push_cast
  ring

/-- Witness for C1 at queue position 5, 2 copies, 14-day loans. -/
theorem loan_window_width_witness :
    (1 ≤ (5 : Nat)) ∧
      worst_availability ⟨"t", "a", 5, 2⟩ 14 d2024_01_01 -
        best_availability ⟨"t", "a", 5, 2⟩ 14 d2024_01_01 = (14 : Int) - 1 :=
  ⟨by decide, loan_window_width ⟨"t", "a", 5, 2⟩ 14 d2024_01_01
    (by decide) (by decide) (by decide)⟩

/-- C2 (divergence witness): running the loop over a report that contains a
reservation with `available_copies = 0` raises `ZeroDivisionError` on the
`floor` division, and that uncaught exception aborts the whole report: the
reservation after the bad one produces no line.  The claim instead requires
an invalid-input error that aborts only the bad reservation's estimate. -/
theorem zero_copies_crashes_report :
    estimationLoop 14 d2024_01_01
        [⟨"first", "x", 1, 1⟩, ⟨"bad", "y", 2, 0⟩, ⟨"last", "z", 1, 1⟩] =
      ([⟨"first", "x", d2024_01_03, d2024_01_16⟩], some PyError.zeroDivisionError) := by
  decide

/-- C3 (counterexample): on queue position 1, one copy, 14-day loans and
today = 2024-01-01, the code does NOT return earliest date 2024-01-02. -/
theorem example_dates_counterexample :
    best_availability ⟨"t", "a", 1, 1⟩ 14 d2024_01_01 ≠ d2024_01_02 := by
  decide

/-- C3 (amended): on queue position 1, one copy, 14-day loans and
today = 2024-01-01, the code computes `people_ahead = 0`,
`full_rounds_to_wait = 0`, earliest date 2024-01-03 and latest date
2024-01-16 (one day later than the claim on each bound). -/
theorem example_dates_amended :
    people_ahead_in_queue ⟨"t", "a", 1, 1⟩ = 0 ∧
      rounds_to_wait ⟨"t", "a", 1, 1⟩ = 0 ∧
      best_availability ⟨"t", "a", 1, 1⟩ 14 d2024_01_01 = d2024_01_03 ∧
      worst_availability ⟨"t", "a", 1, 1⟩ 14 d2024_01_01 = d2024_01_16 := by
  decide

/-- C4 (counterexample): for the valid input queue position 1, one copy and
loan duration 1 (which satisfies `loan_duration_in_days >= 1`), the two
bounds coincide, refuting strict difference for every valid input. -/
theorem bounds_equal_for_unit_loan :
    best_availability ⟨"t", "a", 1, 1⟩ 1 d2024_01_01 =
      worst_availability ⟨"t", "a", 1, 1⟩ 1 d2024_01_01 := by
  decide

/-- C4 (amended): for every valid input with `loan_duration_in_days >= 2`,
the earliest date is strictly before the latest date; the bounds coincide
exactly when `loan_duration_in_days = 1`. -/
theorem bounds_strict_for_loan_ge_two (res : MLOLReservation) (L : Nat) (today : Int)
    (hq : 1 ≤ res.queue_position) (ha : 1 ≤ res.available_copies) (hL : 2 ≤ L) :
    best_availability res L today < worst_availability res L today := by
  have h : 1 + rounds_to_wait res * L < (rounds_to_wait res + 1) * L := by
    have e : (rounds_to_wait res + 1) * L = rounds_to_wait res * L + L := by ring
    omega
  have h2 : ((1 + rounds_to_wait res * L : Nat) : Int) <
      (((rounds_to_wait res + 1) * L : Nat) : Int) := by exact_mod_cast h
  unfold best_availability worst_availability days_to_wait_best days_to_wait_worst
  omega

/-- Witness for the amended C4 at queue position 3, 2 copies, 14-day loans. -/
theorem bounds_strict_witness :
    (2 ≤ (14 : Nat)) ∧
      best_availability ⟨"t", "a", 3, 2⟩ 14 d2024_01_01 <
        worst_availability ⟨"t", "a", 3, 2⟩ 14 d2024_01_01 :=
  ⟨by decide, bounds_strict_for_loan_ge_two ⟨"t", "a", 3, 2⟩ 14 d2024_01_01
    (by decide) (by decide) (by decide)⟩

/-- C5: for every valid input, the best-case bound matches the spec formula:
`full_rounds_to_wait = (queue_position - 1) / available_copies` (floor), the
best-case wait is `1 + full_rounds_to_wait * loan_duration_in_days` days, and
the earliest date is `today + 2 + full_rounds_to_wait * loan_duration_in_days`
(one day after today plus the wait). -/
theorem best_case_formula (res : MLOLReservation) (L : Nat) (today : Int)
    (hq : 1 ≤ res.queue_position) (ha : 1 ≤ res.available_copies) (hL : 1 ≤ L) :
    rounds_to_wait res = (res.queue_position - 1) / res.available_copies ∧
      days_to_wait_best res L = 1 + rounds_to_wait res * L ∧
      best_availability res L today =
        today + 2 + (rounds_to_wait res : Int) * (L : Int) := by
  refine ⟨rfl, rfl, ?_⟩
  unfold best_availability days_to_wait_best
  push_cast
  ring

/-- Witness for C5 at queue position 5, 2 copies, 14-day loans. -/
theorem best_case_formula_witness :
    (1 ≤ (5 : Nat)) ∧
      (rounds_to_wait ⟨"t", "a", 5, 2⟩ = (5 - 1) / 2 ∧
        days_to_wait_best ⟨"t", "a", 5, 2⟩ 14 = 1 + rounds_to_wait ⟨"t", "a", 5, 2⟩ * 14 ∧
        best_availability ⟨"t", "a", 5, 2⟩ 14 d2024_01_01 =
          d2024_01_01 + 2 + (rounds_to_wait ⟨"t", "a", 5, 2⟩ : Int) * (14 : Int)) :=
  ⟨by decide, best_case_formula ⟨"t", "a", 5, 2⟩ 14 d2024_01_01
    (by decide) (by decide) (by decide)⟩

/-- C6: for every valid input, the worst-case bound matches the spec formula
`today + 1 + (full_rounds_to_wait + 1) * loan_duration_in_days`; moreover, on
queue position 5, 2 copies and 14-day loans, the best-case day count is
`1 + 2 * 14 = 29` and the worst-case day count is `3 * 14 = 42`. -/
theorem worst_case_formula (res : MLOLReservation) (L : Nat) (today : Int)
    (hq : 1 ≤ res.queue_position) (ha : 1 ≤ res.available_copies) (hL : 1 ≤ L) :
    worst_availability res L today =
        today + 1 + ((rounds_to_wait res : Int) + 1) * (L : Int) ∧
      days_to_wait_best ⟨"t", "a", 5, 2⟩ 14 = 29 ∧
      days_to_wait_worst ⟨"t", "a", 5, 2⟩ 14 = 42 := by
  refine ⟨?_, by decide, by decide⟩
  unfold worst_availability days_to_wait_worst
  push_cast
  ring

/-- Witness for C6 at queue position 5, 2 copies, 14-day loans. -/
theorem worst_case_formula_witness :
    (1 ≤ (5 : Nat)) ∧
      (worst_availability ⟨"t", "a", 5, 2⟩ 14 d2024_01_01 =
          d2024_01_01 + 1 + ((rounds_to_wait ⟨"t", "a", 5, 2⟩ : Int) + 1) * (14 : Int) ∧
        days_to_wait_best ⟨"t", "a", 5, 2⟩ 14 = 29 ∧
        days_to_wait_worst ⟨"t", "a", 5, 2⟩ 14 = 42) :=
  ⟨by decide, worst_case_formula ⟨"t", "a", 5, 2⟩ 14 d2024_01_01
    (by decide) (by decide) (by decide)⟩

/-- C7: with available copies, loan duration and today held fixed, increasing
the queue position never moves either availability bound earlier. -/
theorem monotone_in_queue_position (res res' : MLOLReservation) (L : Nat) (today : Int)
    (hq : 1 ≤ res.queue_position) (ha : 1 ≤ res.available_copies) (hL : 1 ≤ L)
    (hsame : res'.available_copies = res.available_copies)
    (hle : res.queue_position ≤ res'.queue_position) :
    best_availability res L today ≤ best_availability res' L today ∧
      worst_availability res L today ≤ worst_availability res' L today := by
  have hr : rounds_to_wait res ≤ rounds_to_wait res' := by
    unfold rounds_to_wait people_ahead_in_queue
    rw [hsame]
    exact Nat.div_le_div_right (Nat.sub_le_sub_right hle 1)
  have hmul : rounds_to_wait res * L ≤ rounds_to_wait res' * L :=
    Nat.mul_le_mul hr (Nat.le_refl L)
  have hb : days_to_wait_best res L ≤ days_to_wait_best res' L := by
    unfold days_to_wait_best
    omega
  have hw : days_to_wait_worst res L ≤ days_to_wait_worst res' L := by
    unfold days_to_wait_worst
    have e : ∀ r : Nat, (r + 1) * L = r * L + L := fun r => by ring
    rw [e, e]
    omega
  refine ⟨?_, ?_⟩
  · unfold best_availability
    omega
  · unfold worst_availability
    omega

/-- Witness for C7: queue positions 2 and 7 with 2 copies, 14-day loans. -/
theorem monotone_in_queue_position_witness :
    (2 ≤ (7 : Nat)) ∧
      (best_availability ⟨"t", "a", 2, 2⟩ 14 d2024_01_01 ≤
          best_availability ⟨"u", "b", 7, 2⟩ 14 d2024_01_01 ∧
        worst_availability ⟨"t", "a", 2, 2⟩ 14 d2024_01_01 ≤
          worst_availability ⟨"u", "b", 7, 2⟩ 14 d2024_01_01) :=
  ⟨by decide, monotone_in_queue_position ⟨"t", "a", 2, 2⟩ ⟨"u", "b", 7, 2⟩ 14 d2024_01_01
    (by decide) (by decide) (by decide) (by decide) (by decide)⟩

/-- C8: a non-positive `loan_duration_in_days` is rejected by the `assert` in
`MLOLConfig.__init__` (an invalid-input error) before any estimate runs, and
every configuration that passes construction carries a loan duration of at
least 1, so the estimator never sees a non-positive duration. -/
theorem config_rejects_nonpositive_duration (mcr L mml : Int) :
    (L < 1 → ∃ msg, MLOLConfig.init mcr L mml = Except.error msg) ∧
      (∀ c, MLOLConfig.init mcr L mml = Except.ok c → 1 ≤ c.loan_duration_in_days) := by
  constructor
  · intro hL
    by_cases hm : mcr ≤ 0
    · exact ⟨"The maximum number of concurrent reservations must be greater than zero",
        by simp [MLOLConfig.init, hm]⟩
    · have h1 : L ≤ 0 := by omega
      exact ⟨"Duration of a loan (in days) must be greater than zero",
        by simp [MLOLConfig.init, hm, h1]⟩
  · intro c hc
    by_cases hm : mcr ≤ 0
    · simp [MLOLConfig.init, hm] at hc
    · by_cases hL : L ≤ 0
      · simp [MLOLConfig.init, hm, hL] at hc
      · simp [MLOLConfig.init, hm, hL] at hc
        subst hc
        show (1 : Int) ≤ L
        omega

/-- Witness for C8: duration 0 is rejected at construction time. -/
theorem config_rejects_witness :
    ∃ msg, MLOLConfig.init 1 0 5 = Except.error msg :=
  (config_rejects_nonpositive_duration 1 0 5).1 (by decide)

/-- C9: for every valid input, the earliest date is at least two days after
today: even the patron next in line is never told a copy may be free
tomorrow. -/
theorem earliest_at_least_two_days (res : MLOLReservation) (L : Nat) (today : Int)
    (hq : 1 ≤ res.queue_position) (ha : 1 ≤ res.available_copies) (hL : 1 ≤ L) :
    today + 2 ≤ best_availability res L today := by
  have h : (1 : Nat) ≤ 1 + rounds_to_wait res * L := Nat.le_add_right 1 _
  have h2 : (1 : Int) ≤ ((1 + rounds_to_wait res * L : Nat) : Int) := by exact_mod_cast h
  unfold best_availability days_to_wait_best
  omega

/-- Witness for C9 at queue position 1, one copy, 14-day loans. -/
theorem earliest_at_least_two_days_witness :
    (1 ≤ (1 : Nat)) ∧
      d2024_01_01 + 2 ≤ best_availability ⟨"t", "a", 1, 1⟩ 14 d2024_01_01 :=
  ⟨by decide, earliest_at_least_two_days ⟨"t", "a", 1, 1⟩ 14 d2024_01_01
    (by decide) (by decide) (by decide)⟩

/-- C10: the estimate depends on the reservation only through
`full_rounds_to_wait = (queue_position - 1) / available_copies`: two valid
reservations with the same quotient get identical bounds under the same loan
duration and today, regardless of title, authors, or the individual values of
queue position and available copies. -/
theorem estimate_depends_only_on_rounds (res1 res2 : MLOLReservation) (L : Nat) (today : Int)
    (h1q : 1 ≤ res1.queue_position) (h1a : 1 ≤ res1.available_copies)
    (h2q : 1 ≤ res2.queue_position) (h2a : 1 ≤ res2.available_copies)
    (hr : rounds_to_wait res1 = rounds_to_wait res2) :
    best_availability res1 L today = best_availability res2 L today ∧
      worst_availability res1 L today = worst_availability res2 L today := by
  unfold best_availability worst_availability days_to_wait_best days_to_wait_worst
  rw [hr]
  exact ⟨rfl, rfl⟩

/-- Witness for C10: queue position 5 with 2 copies and queue position 3 with
1 copy both give quotient 2, and different titles; the bounds coincide. -/
theorem estimate_depends_only_on_rounds_witness :
    rounds_to_wait ⟨"Book One", "X", 5, 2⟩ = rounds_to_wait ⟨"Book Two", "Y", 3, 1⟩ ∧
      (best_availability ⟨"Book One", "X", 5, 2⟩ 14 d2024_01_01 =
          best_availability ⟨"Book Two", "Y", 3, 1⟩ 14 d2024_01_01 ∧
        worst_availability ⟨"Book One", "X", 5, 2⟩ 14 d2024_01_01 =
          worst_availability ⟨"Book Two", "Y", 3, 1⟩ 14 d2024_01_01) :=
  ⟨by decide, estimate_depends_only_on_rounds ⟨"Book One", "X", 5, 2⟩ ⟨"Book Two", "Y", 3, 1⟩
    14 d2024_01_01 (by decide) (by decide) (by decide) (by decide) (by decide)⟩

end MLOLSpec
